import Mathlib

/-!
Shallow embedding of the AI-Academy-Dashboard logic layer:
  * the readiness engine (src/unnamed/part_005: getExpectedReadiness,
    calculateTaskForceReadiness, calculateOverallProgramReadiness),
  * the mastery threshold evaluator and sweep endpoint
    (src/ai-academy-dashboard/src/app/api/cron/mastery-update/route.ts,
    src/unnamed/part_004: calculateNewLevel, checkForLevelUp),
  * the student live-session sync actions (src/unnamed/part_003:
    toggleSync, rejoinSync).

JavaScript numbers are modelled as exact integers/rationals; Math.round
becomes jsRound below.  The wall clock consumed by getCurrentProgramDay is
made an explicit programDay parameter, and the database update calls of the
cron sweep become an explicit success oracle.
-/

namespace AIAcademy

/-- JavaScript Math.round on an exact rational: floor of x + 1/2
(halves round toward positive infinity, as Math.round does). -/
def jsRound (x : ℚ) : ℤ := ⌊x + 1/2⌋

/-- Constant MAX_MASTERY_LEVEL of part_005. -/
def MAX_MASTERY_LEVEL : ℤ := 4

/-- Record MemberMastery of part_005.  RoleType and ClearanceLevel are string
unions whose defining file is not in the sources, so both are plain strings. -/
structure MemberMastery where
  participant_id : String
  name : String
  role : String
  mastery_level : ℤ
  clearance : String
  days_completed : ℤ
deriving DecidableEq, Repr

/-- Record RoleBreakdown of part_005. -/
structure RoleBreakdown where
  role : String
  count : ℕ
  totalMastery : ℤ
  avgMastery : ℚ
  readyCount : ℕ
  readinessPercent : ℤ
deriving DecidableEq, Repr

/-- The trend union of TaskForceReadiness. -/
inductive Trend
  | up
  | down
  | stable
deriving DecidableEq, Repr

/-- Record TaskForceReadiness of part_005. -/
structure TaskForceReadiness where
  taskForceId : String
  taskForceName : String
  totalMembers : ℕ
  overallReadiness : ℤ
  roleBreakdown : List RoleBreakdown
  trend : Trend
  trendValue : ℤ
  targetReadiness : ℤ
  isOnTrack : Bool
  members : List MemberMastery
  lowestRole : Option String
  highestRole : Option String
deriving DecidableEq, Repr

/-- Function getExpectedReadiness of part_005, lines 58-72. -/
def getExpectedReadiness (programDay : ℤ) : ℤ :=
  if programDay ≤ 0 then 0
  else if 25 ≤ programDay then 100
  else if programDay ≤ 3 then 25
  else if programDay ≤ 10 then 50
  else if programDay ≤ 20 then 75
  else 100

/-- Sum of the mastery_level fields, the reduce at part_005 line 101/122. -/
def masterySum (ms : List MemberMastery) : ℤ :=
  (ms.map (fun m => m.mastery_level)).sum

/-- The readiness formula Math.round((sum / (n * MAX_MASTERY_LEVEL)) * 100),
used both for overallReadiness (line 104) and readinessPercent (line 125). -/
def readinessPercentOf (ms : List MemberMastery) : ℤ :=
  jsRound ((masterySum ms : ℚ) / ((ms.length : ℚ) * (MAX_MASTERY_LEVEL : ℚ)) * 100)

/-- The distinct roles of a member list in order of first appearance: the key
order of the insertion-ordered Map built at part_005 lines 107-112. -/
def rolesInOrder (ms : List MemberMastery) : List String :=
  ms.foldl (fun acc m => if m.role ∈ acc then acc else acc ++ [m.role]) []

/-- The group a role maps to in the Map of part_005 lines 107-112: the members
with that role, in list order. -/
def membersWithRole (ms : List MemberMastery) (r : String) : List MemberMastery :=
  ms.filter (fun m => m.role == r)

/-- One entry of roleBreakdown, built at part_005 lines 121-134. -/
def mkRoleBreakdown (ms : List MemberMastery) (r : String) : RoleBreakdown :=
  { role := r
    count := (membersWithRole ms r).length
    totalMastery := masterySum (membersWithRole ms r)
    avgMastery := (masterySum (membersWithRole ms r) : ℚ) / ((membersWithRole ms r).length : ℚ)
    readyCount := ((membersWithRole ms r).filter (fun m => decide (3 ≤ m.mastery_level))).length
    readinessPercent := readinessPercentOf (membersWithRole ms r) }

/-- The lowest-readiness scan of part_005 lines 116-140: strict comparison
against an accumulator starting at 101, so ties keep the earlier role. -/
def lowestRoleScan (bs : List RoleBreakdown) : ℤ × Option String :=
  bs.foldl
    (fun acc rb =>
      if rb.readinessPercent < acc.1 then (rb.readinessPercent, some rb.role) else acc)
    (101, none)

/-- The highest-readiness scan of part_005 lines 117-144: strict comparison
against an accumulator starting at -1, so ties keep the earlier role. -/
def highestRoleScan (bs : List RoleBreakdown) : ℤ × Option String :=
  bs.foldl
    (fun acc rb =>
      if acc.1 < rb.readinessPercent then (rb.readinessPercent, some rb.role) else acc)
    (-1, none)

/-- The stable ascending sort by readinessPercent at part_005 line 148. -/
def sortBreakdown (bs : List RoleBreakdown) : List RoleBreakdown :=
  bs.insertionSort (fun a b => a.readinessPercent ≤ b.readinessPercent)

/-- The trend computed at part_005 lines 151-158. -/
def trendOf (previousReadiness : Option ℤ) (overallReadiness : ℤ) : Trend :=
  match previousReadiness with
  | none => Trend.stable
  | some p =>
    if 0 < overallReadiness - p then Trend.up
    else if overallReadiness - p < 0 then Trend.down
    else Trend.stable

/-- The trendValue computed at part_005 lines 152-155. -/
def trendValueOf (previousReadiness : Option ℤ) (overallReadiness : ℤ) : ℤ :=
  match previousReadiness with
  | none => 0
  | some p => overallReadiness - p

/-- Function calculateTaskForceReadiness of part_005, lines 77-178.  The
current program day (getCurrentProgramDay reads the wall clock) is passed in
as programDay. -/
def calculateTaskForceReadiness (taskForceId taskForceName : String)
    (members : List MemberMastery) (previousReadiness : Option ℤ)
    (programDay : ℤ) : TaskForceReadiness :=
  if members.isEmpty then
    { taskForceId := taskForceId
      taskForceName := taskForceName
      totalMembers := 0
      overallReadiness := 0
      roleBreakdown := []
      trend := Trend.stable
      trendValue := 0
      targetReadiness := getExpectedReadiness programDay
      isOnTrack := false
      members := []
      lowestRole := none
      highestRole := none }
  else
    { taskForceId := taskForceId
      taskForceName := taskForceName
      totalMembers := members.length
      overallReadiness := readinessPercentOf members
      roleBreakdown := sortBreakdown ((rolesInOrder members).map (mkRoleBreakdown members))
      trend := trendOf previousReadiness (readinessPercentOf members)
      trendValue := trendValueOf previousReadiness (readinessPercentOf members)
      targetReadiness := getExpectedReadiness programDay
      isOnTrack := decide (getExpectedReadiness programDay ≤ readinessPercentOf members)
      members := members
      lowestRole := (lowestRoleScan ((rolesInOrder members).map (mkRoleBreakdown members))).2
      highestRole := (highestRoleScan ((rolesInOrder members).map (mkRoleBreakdown members))).2 }

/-- One entry of the final roleAnalysis map of part_005 lines 227-233. -/
structure RoleAnalysisEntry where
  role : String
  total : ℕ
  avgReadiness : ℤ
deriving DecidableEq, Repr

/-- The result record of calculateOverallProgramReadiness (part_005 lines
185-191), with the insertion-ordered roleAnalysis Map as an ordered list. -/
structure ProgramReadiness where
  overallReadiness : ℤ
  totalParticipants : ℕ
  taskForcesOnTrack : ℕ
  taskForcesAtRisk : ℕ
  roleAnalysis : List RoleAnalysisEntry
deriving DecidableEq, Repr

/-- The totalParticipants reduce of part_005 line 202. -/
def totalParticipantsOf (tfs : List TaskForceReadiness) : ℕ :=
  (tfs.map (fun tf => tf.totalMembers)).sum

/-- The weightedReadiness reduce of part_005 lines 205-208. -/
def weightedReadinessOf (tfs : List TaskForceReadiness) : ℤ :=
  (tfs.map (fun tf => tf.overallReadiness * (tf.totalMembers : ℤ))).sum

/-- One Map.set step of the role aggregation at part_005 lines 217-224: an
existing key is updated in place, a new key is appended (JS Map keeps the
first-insertion position of a key). -/
def addRoleEntry : List (String × ℕ × ℤ) → String → ℕ → ℤ → List (String × ℕ × ℤ)
  | [], r, cnt, sr => [(r, cnt, sr)]
  | (k, t, s) :: rest, r, cnt, sr =>
    if k = r then (k, t + cnt, s + sr) :: rest
    else (k, t, s) :: addRoleEntry rest r cnt sr

/-- The double forEach accumulating (total, sumReadiness) per role, part_005
lines 215-224. -/
def roleAccum (tfs : List TaskForceReadiness) : List (String × ℕ × ℤ) :=
  tfs.foldl
    (fun acc tf =>
      tf.roleBreakdown.foldl
        (fun acc2 rb => addRoleEntry acc2 rb.role rb.count (rb.readinessPercent * (rb.count : ℤ)))
        acc)
    []

/-- Function calculateOverallProgramReadiness of part_005, lines 183-242.
In JS, a non-empty task-force list whose total member count is 0 divides by
zero (NaN); in this rational embedding that division yields 0, so the
overallReadiness field is only meaningful for a positive total count (the
source guards only the empty list). -/
def calculateOverallProgramReadiness (tfs : List TaskForceReadiness) : ProgramReadiness :=
  if tfs.isEmpty then
    { overallReadiness := 0
      totalParticipants := 0
      taskForcesOnTrack := 0
      taskForcesAtRisk := 0
      roleAnalysis := [] }
  else
    { overallReadiness := jsRound ((weightedReadinessOf tfs : ℚ) / (totalParticipantsOf tfs : ℚ))
      totalParticipants := totalParticipantsOf tfs
      taskForcesOnTrack := (tfs.filter (fun tf => tf.isOnTrack)).length
      taskForcesAtRisk := tfs.length - (tfs.filter (fun tf => tf.isOnTrack)).length
      roleAnalysis :=
        (roleAccum tfs).map
          (fun e =>
            { role := e.1
              total := e.2.1
              avgReadiness := jsRound ((e.2.2 : ℚ) / (e.2.1 : ℚ)) }) }

/-- Record MasteryRecord of route.ts lines 41-50 (ParticipantMastery carries
the same fields in part_004). -/
structure MasteryRecord where
  id : String
  participant_id : String
  mastery_level : ℤ
  clearance : String
  days_completed : ℤ
  artifacts_submitted : ℤ
  ai_tutor_sessions : ℤ
  peer_assists_given : ℤ
deriving DecidableEq, Repr

/-- Level-4 threshold test of route.ts lines 61-65: the constants come from
MASTERY_THRESHOLDS[4] with the nullish defaults resolved. -/
def meetsLevel4 (m : MasteryRecord) : Prop :=
  20 ≤ m.days_completed ∧ 3 ≤ m.artifacts_submitted ∧ 2 ≤ m.peer_assists_given

instance (m : MasteryRecord) : Decidable (meetsLevel4 m) :=
  inferInstanceAs
    (Decidable (20 ≤ m.days_completed ∧ 3 ≤ m.artifacts_submitted ∧ 2 ≤ m.peer_assists_given))

/-- Level-3 threshold test of route.ts lines 73-76, from MASTERY_THRESHOLDS[3]. -/
def meetsLevel3 (m : MasteryRecord) : Prop :=
  10 ≤ m.days_completed ∧ 1 ≤ m.artifacts_submitted

instance (m : MasteryRecord) : Decidable (meetsLevel3 m) :=
  inferInstanceAs (Decidable (10 ≤ m.days_completed ∧ 1 ≤ m.artifacts_submitted))

/-- Level-2 threshold test of route.ts lines 84-87, from MASTERY_THRESHOLDS[2]. -/
def meetsLevel2 (m : MasteryRecord) : Prop :=
  3 ≤ m.days_completed ∧ 1 ≤ m.ai_tutor_sessions

instance (m : MasteryRecord) : Decidable (meetsLevel2 m) :=
  inferInstanceAs (Decidable (3 ≤ m.days_completed ∧ 1 ≤ m.ai_tutor_sessions))

/-- Function calculateNewLevel of route.ts lines 52-93 (the copy in part_004
lines 71-112 is identical up to the nullish defaults, which resolve to the
same constants).  Checks level 4, then 3, then 2; each check is skipped
unless the level is strictly above the current one; the first satisfied
check returns. -/
def calculateNewLevel (m : MasteryRecord) : Option (ℤ × String) :=
  if m.mastery_level < 4 ∧ meetsLevel4 m then some (4, "SPECIALIST")
  else if m.mastery_level < 3 ∧ meetsLevel3 m then some (3, "FIELD_READY")
  else if m.mastery_level < 2 ∧ meetsLevel2 m then some (2, "FIELD_TRAINEE")
  else none

/-- Specification-side view of the threshold table: level l's entry is
satisfied by the record's counters. -/
def meetsLevel (m : MasteryRecord) (l : ℤ) : Prop :=
  (l = 4 ∧ meetsLevel4 m) ∨ (l = 3 ∧ meetsLevel3 m) ∨ (l = 2 ∧ meetsLevel2 m)

/-- Specification-side view: level l is a possible level-up for the record
(strictly above the current level and its thresholds are satisfied). -/
def eligible (m : MasteryRecord) (l : ℤ) : Prop :=
  m.mastery_level < l ∧ meetsLevel m l

/-- The clearance label the threshold table binds to each level. -/
def clearanceFor (l : ℤ) : String :=
  if l = 4 then "SPECIALIST"
  else if l = 3 then "FIELD_READY"
  else if l = 2 then "FIELD_TRAINEE"
  else ""

/-- The state change applied by the sweep loop (route.ts lines 128-136) and
by checkForLevelUp (part_004 lines 115-135): set mastery_level and clearance
to the result of calculateNewLevel, or leave the record unchanged. -/
def applyLevelUp (m : MasteryRecord) : MasteryRecord :=
  match calculateNewLevel m with
  | some lc => { m with mastery_level := lc.1, clearance := lc.2 }
  | none => m

/-- The JSON summary returned by the mastery-sweep GET handler, route.ts
lines 152-157 (the updates array is summarised by its length). -/
structure SweepSummary where
  success : Bool
  processed : ℕ
  updated : ℕ
deriving DecidableEq, Repr

/-- The per-record loop of route.ts lines 125-148: each record is evaluated
with calculateNewLevel; a level-up whose database update succeeds (updateOk)
is pushed onto updates; a failed update is only logged and the loop
continues with the remaining records. -/
def sweepUpdatedCount : List MasteryRecord → (MasteryRecord → Bool) → ℕ
  | [], _ => 0
  | m :: rest, updateOk =>
    (match calculateNewLevel m with
     | some _ => if updateOk m then 1 else 0
     | none => 0) + sweepUpdatedCount rest updateOk

/-- The successful-fetch path of the mastery-sweep GET handler, route.ts
lines 105-157, with the database update outcomes as the oracle updateOk. -/
def masterySweep (records : List MasteryRecord) (updateOk : MasteryRecord → Bool) : SweepSummary :=
  { success := true
    processed := records.length
    updated := sweepUpdatedCount records updateOk }

/-- The broadcast SessionState of useLiveSession.ts lines 7-11. -/
structure SessionState where
  currentStep : ℤ
  currentSection : String
  isActive : Bool
deriving DecidableEq, Repr

/-- The student-view local state of part_003 lines 52-54: the sync-paused
flag and local position, plus the last session state received from the
useLiveSession hook (null until a fetch or broadcast delivers one). -/
structure StudentView where
  isSyncPaused : Bool
  localStep : ℤ
  localSection : String
  sessionState : Option SessionState
deriving DecidableEq, Repr

/-- Action rejoinSync of part_003 lines 117-125: when a session state is
known, copy the instructor position into the local position and clear the
pause flag; with no known state it does nothing. -/
def rejoinSync (v : StudentView) : StudentView :=
  match v.sessionState with
  | some s =>
    { v with
      localStep := s.currentStep
      localSection := s.currentSection
      isSyncPaused := false }
  | none => v

/-- Action toggleSync of part_003 lines 102-114: when paused, copy the known
instructor position into the local position; then flip the pause flag. -/
def toggleSync (v : StudentView) : StudentView :=
  let v2 :=
    if v.isSyncPaused then
      match v.sessionState with
      | some s => { v with localStep := s.currentStep, localSection := s.currentSection }
      | none => v
    else v
  { v2 with isSyncPaused := !v.isSyncPaused }

/-- The level-1 record of spec section 8: days_completed 3, ai_tutor_sessions
1, other counters 0. -/
def traineeRecord : MasteryRecord :=
  { id := "m1"
    participant_id := "p1"
    mastery_level := 1
    clearance := "RECRUIT"
    days_completed := 3
    artifacts_submitted := 0
    ai_tutor_sessions := 1
    peer_assists_given := 0 }

/-- A sample member at mastery level 2 for witness instantiation. -/
def sampleMember : MemberMastery :=
  { participant_id := "p1"
    name := "Ada"
    role := "FDE"
    mastery_level := 2
    clearance := "FIELD_TRAINEE"
    days_completed := 5 }

/-- A sample task-force summary with two members for witness instantiation. -/
def sampleTaskForce : TaskForceReadiness :=
  { taskForceId := "tf1"
    taskForceName := "Alpha"
    totalMembers := 2
    overallReadiness := 50
    roleBreakdown := []
    trend := Trend.stable
    trendValue := 0
    targetReadiness := 25
    isOnTrack := true
    members := []
    lowestRole := none
    highestRole := none }

/-- A diverged student view: paused, away from the instructor, with a last
broadcast state on record. -/
def divergedView : StudentView :=
  { isSyncPaused := true
    localStep := 7
    localSection := "lab"
    sessionState := some { currentStep := 2, currentSection := "briefing", isActive := true } }

/-! Helper lemmas, shared by the claim theorems below. -/

theorem jsRound_le_of_le {x : ℚ} {n : ℤ} (h : x ≤ (n : ℚ)) : jsRound x ≤ n := by
  unfold jsRound
  have hlt : x + 1/2 < ((n + 1 : ℤ) : ℚ) := by push_cast; linarith
  have := Int.floor_lt.mpr hlt
  omega

theorem le_jsRound_of_le {x : ℚ} {n : ℤ} (h : (n : ℚ) ≤ x) : n ≤ jsRound x := by
  unfold jsRound
  exact Int.le_floor.mpr (by linarith)

theorem masterySum_le (ms : List MemberMastery) (h : ∀ m ∈ ms, m.mastery_level ≤ 4) :
    masterySum ms ≤ 4 * (ms.length : ℤ) := by
  induction ms with
  | nil => simp [masterySum]
  | cons a t ih =>
    have ha := h a (List.mem_cons_self a t)
    have ht := ih (fun m hm => h m (List.mem_cons_of_mem a hm))
    simp only [masterySum, List.map_cons, List.sum_cons, List.length_cons] at *
    push_cast
    omega

theorem le_masterySum (ms : List MemberMastery) (h : ∀ m ∈ ms, 1 ≤ m.mastery_level) :
    (ms.length : ℤ) ≤ masterySum ms := by
  induction ms with
  | nil => simp [masterySum]
  | cons a t ih =>
    have ha := h a (List.mem_cons_self a t)
    have ht := ih (fun m hm => h m (List.mem_cons_of_mem a hm))
    simp only [masterySum, List.map_cons, List.sum_cons, List.length_cons] at *
    push_cast
    omega

theorem readinessPercentOf_bounds (ms : List MemberMastery) (hne : ms ≠ [])
    (hlv : ∀ m ∈ ms, 1 ≤ m.mastery_level ∧ m.mastery_level ≤ 4) :
    0 ≤ readinessPercentOf ms ∧ readinessPercentOf ms ≤ 100 := by
  have hlen : 0 < ms.length := List.length_pos.mpr hne
  have hub : masterySum ms ≤ 4 * (ms.length : ℤ) := masterySum_le ms (fun m hm => (hlv m hm).2)
  have hlb : (ms.length : ℤ) ≤ masterySum ms := le_masterySum ms (fun m hm => (hlv m hm).1)
  have hlenQ : (0 : ℚ) < (ms.length : ℚ) := by exact_mod_cast hlen
  have hubQ : (masterySum ms : ℚ) ≤ 4 * (ms.length : ℚ) := by exact_mod_cast hub
  have hlbQ : (ms.length : ℚ) ≤ (masterySum ms : ℚ) := by exact_mod_cast hlb
  unfold readinessPercentOf MAX_MASTERY_LEVEL
  constructor
  · apply le_jsRound_of_le
    push_cast
    have h0 : (0 : ℚ) ≤ (masterySum ms : ℚ) := by linarith
    have h1 : (0 : ℚ) ≤ (masterySum ms : ℚ) / ((ms.length : ℚ) * 4) :=
      div_nonneg h0 (by positivity)
    have h2 := mul_nonneg h1 (show (0 : ℚ) ≤ 100 by norm_num)
    linarith
  · apply jsRound_le_of_le
    push_cast
    rw [div_mul_eq_mul_div, div_le_iff₀ (by positivity)]
    linarith

/-- C3: getExpectedReadiness is the four-plateau step function of the program
day: 0 for day at most 0, then 25 on days 1-3, 50 on days 4-10, 75 on days
11-20 and 100 from day 21 on, so on days 1-25 it only takes the values
25, 50, 75, 100; in particular it returns 75 for program day 15. -/
theorem getExpectedReadiness_step : ∀ d : ℤ,
    (d ≤ 0 → getExpectedReadiness d = 0) ∧
    (1 ≤ d ∧ d ≤ 3 → getExpectedReadiness d = 25) ∧
    (4 ≤ d ∧ d ≤ 10 → getExpectedReadiness d = 50) ∧
    (11 ≤ d ∧ d ≤ 20 → getExpectedReadiness d = 75) ∧
    (21 ≤ d → getExpectedReadiness d = 100) ∧
    (1 ≤ d ∧ d ≤ 25 →
      getExpectedReadiness d = 25 ∨ getExpectedReadiness d = 50 ∨
      getExpectedReadiness d = 75 ∨ getExpectedReadiness d = 100) ∧
    getExpectedReadiness 15 = 75 := by
  intro d
  refine ⟨?_, ?_, ?_, ?_, ?_, ?_, by decide⟩ <;>
    (intro h; unfold getExpectedReadiness; split_ifs <;> omega)

/-- C4: on the empty member list calculateTaskForceReadiness returns the
zeroed record: overallReadiness 0, empty roleBreakdown, isOnTrack false. -/
theorem calculateTaskForceReadiness_empty (taskForceId taskForceName : String)
    (previousReadiness : Option ℤ) (programDay : ℤ) :
    (calculateTaskForceReadiness taskForceId taskForceName [] previousReadiness
        programDay).overallReadiness = 0 ∧
    (calculateTaskForceReadiness taskForceId taskForceName [] previousReadiness
        programDay).roleBreakdown = [] ∧
    (calculateTaskForceReadiness taskForceId taskForceName [] previousReadiness
        programDay).isOnTrack = false :=
  ⟨rfl, rfl, rfl⟩

/-- C6 counterexample: on the empty member list with the clock before the
program start (program day 0) the target readiness is 0, so overallReadiness
is at least the target, yet isOnTrack is the hard-coded false of the
empty-input branch — isOnTrack differs from (overallReadiness >= target). -/
theorem isOnTrack_empty_counterexample :
    (calculateTaskForceReadiness "tf" "Alpha" [] none 0).targetReadiness
      ≤ (calculateTaskForceReadiness "tf" "Alpha" [] none 0).overallReadiness ∧
    (calculateTaskForceReadiness "tf" "Alpha" [] none 0).isOnTrack = false := by
  exact ⟨by decide, rfl⟩

/-- C6 amended: for every non-empty member list, isOnTrack holds exactly when
overallReadiness is at least targetReadiness (the expected readiness for the
current program day); for the empty member list isOnTrack is always false,
even when the target is 0. -/
theorem isOnTrack_iff_target_le (taskForceId taskForceName : String)
    (members : List MemberMastery) (previousReadiness : Option ℤ) (programDay : ℤ) :
    (members ≠ [] →
      ((calculateTaskForceReadiness taskForceId taskForceName members previousReadiness
          programDay).isOnTrack = true ↔
        (calculateTaskForceReadiness taskForceId taskForceName members previousReadiness
            programDay).targetReadiness
          ≤ (calculateTaskForceReadiness taskForceId taskForceName members previousReadiness
              programDay).overallReadiness)) ∧
    (calculateTaskForceReadiness taskForceId taskForceName [] previousReadiness
        programDay).isOnTrack = false := by
  refine ⟨?_, rfl⟩
  intro hne
  have hE : members.isEmpty = false := by simp [List.isEmpty_iff, hne]
  simp [calculateTaskForceReadiness, hE]

/-- C8: when a last-broadcast instructor state is on record, the rejoinSync
action sets the local position to that state and clears the pause flag, no
matter how far the local position had diverged; the resume branch of
toggleSync (from the paused state) does the same. -/
theorem rejoinSync_converges (v : StudentView) (s : SessionState)
    (h : v.sessionState = some s) :
    (rejoinSync v).localStep = s.currentStep ∧
    (rejoinSync v).localSection = s.currentSection ∧
    (rejoinSync v).isSyncPaused = false ∧
    (v.isSyncPaused = true →
      (toggleSync v).localStep = s.currentStep ∧
      (toggleSync v).localSection = s.currentSection ∧
      (toggleSync v).isSyncPaused = false) := by
  refine ⟨?_, ?_, ?_, ?_⟩
  · simp [rejoinSync, h]
  · simp [rejoinSync, h]
  · simp [rejoinSync, h]
  · intro hp
    refine ⟨?_, ?_, ?_⟩ <;> simp [toggleSync, h, hp]

theorem rejoinSync_converges_witness :
    (rejoinSync divergedView).localStep = 2 ∧
    (rejoinSync divergedView).localSection = "briefing" ∧
    (rejoinSync divergedView).isSyncPaused = false := by
  have h := rejoinSync_converges divergedView
    { currentStep := 2, currentSection := "briefing", isActive := true } rfl
  exact ⟨h.1, h.2.1, h.2.2.1⟩

/-- C2: calculateNewLevel returns a level only when it is a possible level-up
(strictly above the current level with its thresholds met), with the clearance
the threshold table binds to it, and that level is the highest possible one
(the checks run in order 4, 3, 2 and the first satisfied one returns, so
there is at most one level-up per invocation); it returns none exactly when
no level is possible.  In particular, the level-1 record with
days_completed 3 and ai_tutor_sessions 1 (counters below the level-3/4
thresholds) levels up to 2 with clearance FIELD_TRAINEE. -/
theorem calculateNewLevel_spec :
    (∀ m l c, calculateNewLevel m = some (l, c) →
      eligible m l ∧ c = clearanceFor l ∧ ∀ k, eligible m k → k ≤ l) ∧
    (∀ m, calculateNewLevel m = none ↔ ∀ k, ¬ eligible m k) ∧
    calculateNewLevel traineeRecord = some (2, "FIELD_TRAINEE") := by
  refine ⟨?_, ?_, by decide⟩
  · intro m l c h
    unfold calculateNewLevel at h
    split_ifs at h with h4 h3 h2
    · obtain ⟨rfl, rfl⟩ := Prod.mk.injEq .. ▸ (Option.some.inj h).symm
      refine ⟨⟨h4.1, Or.inl ⟨rfl, h4.2⟩⟩, by simp [clearanceFor], ?_⟩
      intro k hk
      rcases hk.2 with ⟨rfl, _⟩ | ⟨rfl, _⟩ | ⟨rfl, _⟩ <;> omega
    · obtain ⟨rfl, rfl⟩ := Prod.mk.injEq .. ▸ (Option.some.inj h).symm
      refine ⟨⟨h3.1, Or.inr (Or.inl ⟨rfl, h3.2⟩)⟩, by simp [clearanceFor], ?_⟩
      intro k hk
      rcases hk.2 with ⟨rfl, hm⟩ | ⟨rfl, _⟩ | ⟨rfl, _⟩
      · exact absurd ⟨by omega, hm⟩ h4
      · omega
      · omega
    · obtain ⟨rfl, rfl⟩ := Prod.mk.injEq .. ▸ (Option.some.inj h).symm
      refine ⟨⟨h2.1, Or.inr (Or.inr ⟨rfl, h2.2⟩)⟩, by simp [clearanceFor], ?_⟩
      intro k hk
      rcases hk.2 with ⟨rfl, hm⟩ | ⟨rfl, hm⟩ | ⟨rfl, _⟩
      · exact absurd ⟨by omega, hm⟩ h4
      · exact absurd ⟨by omega, hm⟩ h3
      · omega
  · intro m
    unfold calculateNewLevel
    split_ifs with h4 h3 h2
    · constructor
      · intro h; cases h
      · intro hall; exact absurd ⟨h4.1, Or.inl ⟨rfl, h4.2⟩⟩ (hall 4)
    · constructor
      · intro h; cases h
      · intro hall; exact absurd ⟨h3.1, Or.inr (Or.inl ⟨rfl, h3.2⟩)⟩ (hall 3)
    · constructor
      · intro h; cases h
      · intro hall; exact absurd ⟨h2.1, Or.inr (Or.inr ⟨rfl, h2.2⟩)⟩ (hall 2)
    · refine ⟨fun _ => ?_, fun _ => rfl⟩
      intro k hk
      rcases hk.2 with ⟨rfl, hm⟩ | ⟨rfl, hm⟩ | ⟨rfl, hm⟩
      · exact h4 ⟨hk.1, hm⟩
      · exact h3 ⟨hk.1, hm⟩
      · exact h2 ⟨hk.1, hm⟩

theorem applyLevelUp_of_none {x : MasteryRecord} (h : calculateNewLevel x = none) :
    applyLevelUp x = x := by
  unfold applyLevelUp
  rw [h]

theorem calculateNewLevel_applyLevelUp (m : MasteryRecord) :
    calculateNewLevel (applyLevelUp m) = none := by
  unfold applyLevelUp
  cases hc : calculateNewLevel m with
  | none => exact hc
  | some lc =>
    unfold calculateNewLevel at hc
    split_ifs at hc with h4 h3 h2
    · obtain rfl := Option.some.inj hc
      simp [calculateNewLevel]
    · obtain rfl := Option.some.inj hc
      have hm4 : ¬ meetsLevel4 m := fun hm => h4 ⟨by omega, hm⟩
      simp only [meetsLevel4] at hm4
      simp [calculateNewLevel, meetsLevel4, hm4]
    · obtain rfl := Option.some.inj hc
      have hm4 : ¬ meetsLevel4 m := fun hm => h4 ⟨by omega, hm⟩
      have hm3 : ¬ meetsLevel3 m := fun hm => h3 ⟨by omega, hm⟩
      simp only [meetsLevel4] at hm4
      simp only [meetsLevel3] at hm3
      simp [calculateNewLevel, meetsLevel4, meetsLevel3, hm4, hm3]

/-- C7: the level-up update is idempotent.  After applying calculateNewLevel
and setting mastery_level and clearance to its result, a second invocation of
calculateNewLevel on the updated record (counters unchanged) returns none, so
applying the level-up twice leaves the state of the first application. -/
theorem levelUp_idempotent : ∀ m : MasteryRecord,
    calculateNewLevel (applyLevelUp m) = none ∧
    applyLevelUp (applyLevelUp m) = applyLevelUp m := fun m =>
  ⟨calculateNewLevel_applyLevelUp m,
    applyLevelUp_of_none (calculateNewLevel_applyLevelUp m)⟩

theorem sweepUpdatedCount_eq_filter (records : List MasteryRecord)
    (updateOk : MasteryRecord → Bool) :
    sweepUpdatedCount records updateOk
      = (records.filter (fun m => (calculateNewLevel m).isSome && updateOk m)).length := by
  induction records with
  | nil => rfl
  | cons a t ih =>
    cases hc : calculateNewLevel a with
    | none => simp [sweepUpdatedCount, hc, ih, List.filter_cons]
    | some lc =>
      cases hok : updateOk a <;>
        simp [sweepUpdatedCount, hc, hok, ih, List.filter_cons, Nat.add_comm]

theorem sweepUpdatedCount_append (l1 l2 : List MasteryRecord)
    (updateOk : MasteryRecord → Bool) :
    sweepUpdatedCount (l1 ++ l2) updateOk
      = sweepUpdatedCount l1 updateOk + sweepUpdatedCount l2 updateOk := by
  induction l1 with
  | nil => simp [sweepUpdatedCount]
  | cons a t ih => simp [sweepUpdatedCount, ih, Nat.add_assoc]

/-- C9: on a run whose fetch succeeds, the mastery-sweep summary reports
processed equal to the number of fetched records and updated equal to the
number of level-ups whose database update succeeded; and a record whose
update fails contributes nothing but does not stop the remaining records
from being evaluated and counted (the count over pre ++ bad :: post is the
count over pre plus the count over post). -/
theorem masterySweep_summary (records : List MasteryRecord)
    (updateOk : MasteryRecord → Bool) :
    (masterySweep records updateOk).success = true ∧
    (masterySweep records updateOk).processed = records.length ∧
    (masterySweep records updateOk).updated
      = (records.filter (fun m => (calculateNewLevel m).isSome && updateOk m)).length ∧
    ∀ pre bad post, records = pre ++ bad :: post → updateOk bad = false →
      (masterySweep records updateOk).updated
        = (masterySweep pre updateOk).updated + (masterySweep post updateOk).updated := by
  refine ⟨rfl, rfl, sweepUpdatedCount_eq_filter records updateOk, ?_⟩
  rintro pre bad post rfl hbad
  show sweepUpdatedCount (pre ++ bad :: post) updateOk = _
  rw [sweepUpdatedCount_append]
  cases hc : calculateNewLevel bad <;> simp [sweepUpdatedCount, hc, hbad, masterySweep]

/-- C1: for every non-empty member list, overallReadiness is the rounded
percentage sum(mastery_level) / (memberCount * 4) * 100, and every entry of
roleBreakdown carries the readinessPercent computed by the same formula
restricted to the members of its role. -/
theorem readiness_formula (taskForceId taskForceName : String)
    (members : List MemberMastery) (previousReadiness : Option ℤ) (programDay : ℤ)
    (hne : members ≠ []) :
    (calculateTaskForceReadiness taskForceId taskForceName members previousReadiness
        programDay).overallReadiness
      = jsRound ((masterySum members : ℚ) / ((members.length : ℚ) * 4) * 100) ∧
    ∀ rb ∈ (calculateTaskForceReadiness taskForceId taskForceName members previousReadiness
        programDay).roleBreakdown,
      rb.readinessPercent
        = jsRound ((masterySum (membersWithRole members rb.role) : ℚ)
            / (((membersWithRole members rb.role).length : ℚ) * 4) * 100) := by
  have hE : members.isEmpty = false := by simp [List.isEmpty_iff, hne]
  constructor
  · simp [calculateTaskForceReadiness, hE, readinessPercentOf, MAX_MASTERY_LEVEL]
  · intro rb hrb
    simp only [calculateTaskForceReadiness, hE, Bool.false_eq_true, if_false] at hrb
    rw [sortBreakdown, List.mem_insertionSort] at hrb
    obtain ⟨r, hr, rfl⟩ := List.mem_map.mp hrb
    simp [mkRoleBreakdown, readinessPercentOf, MAX_MASTERY_LEVEL]

theorem readiness_formula_witness :
    (calculateTaskForceReadiness "tf" "Alpha" [sampleMember] none 15).overallReadiness
      = jsRound ((masterySum [sampleMember] : ℚ)
          / ((([sampleMember] : List MemberMastery).length : ℚ) * 4) * 100) :=
  (readiness_formula "tf" "Alpha" [sampleMember] none 15 (List.cons_ne_nil _ _)).1

/-- C5: for every non-empty member list whose mastery levels lie in 1..4,
the overallReadiness of calculateTaskForceReadiness lies in [0, 100]. -/
theorem overallReadiness_bounds (taskForceId taskForceName : String)
    (members : List MemberMastery) (previousReadiness : Option ℤ) (programDay : ℤ)
    (hne : members ≠ [])
    (hlv : ∀ m ∈ members, 1 ≤ m.mastery_level ∧ m.mastery_level ≤ 4) :
    0 ≤ (calculateTaskForceReadiness taskForceId taskForceName members previousReadiness
        programDay).overallReadiness ∧
    (calculateTaskForceReadiness taskForceId taskForceName members previousReadiness
        programDay).overallReadiness ≤ 100 := by
  have hE : members.isEmpty = false := by simp [List.isEmpty_iff, hne]
  have hb := readinessPercentOf_bounds members hne hlv
  simpa [calculateTaskForceReadiness, hE] using hb

theorem overallReadiness_bounds_witness :
    0 ≤ (calculateTaskForceReadiness "tf" "Alpha" [sampleMember] none 15).overallReadiness ∧
    (calculateTaskForceReadiness "tf" "Alpha" [sampleMember] none 15).overallReadiness ≤ 100 :=
  overallReadiness_bounds "tf" "Alpha" [sampleMember] none 15 (List.cons_ne_nil _ _) (by decide)

/-- C10: for every task-force list with a positive total member count,
calculateOverallProgramReadiness reports the rounded member-count-weighted
average of the per-task-force overallReadiness values, the summed member
count, and on-track plus at-risk task forces totalling the list length; the
empty list yields the all-zero summary. -/
theorem programReadiness_aggregate (tfs : List TaskForceReadiness)
    (hpos : 0 < totalParticipantsOf tfs) :
    (calculateOverallProgramReadiness tfs).overallReadiness
      = jsRound ((weightedReadinessOf tfs : ℚ) / (totalParticipantsOf tfs : ℚ)) ∧
    (calculateOverallProgramReadiness tfs).totalParticipants = totalParticipantsOf tfs ∧
    (calculateOverallProgramReadiness tfs).taskForcesOnTrack
      + (calculateOverallProgramReadiness tfs).taskForcesAtRisk = tfs.length ∧
    calculateOverallProgramReadiness [] =
      { overallReadiness := 0, totalParticipants := 0, taskForcesOnTrack := 0,
        taskForcesAtRisk := 0, roleAnalysis := [] } := by
  have hne : tfs ≠ [] := by
    rintro rfl
    simp [totalParticipantsOf] at hpos
  have hE : tfs.isEmpty = false := by simp [List.isEmpty_iff, hne]
  refine ⟨?_, ?_, ?_, rfl⟩
  · simp [calculateOverallProgramReadiness, hE]
  · simp [calculateOverallProgramReadiness, hE]
  · simp only [calculateOverallProgramReadiness, hE, Bool.false_eq_true, if_false]
    have hle : (tfs.filter (fun tf => tf.isOnTrack)).length ≤ tfs.length :=
      List.length_filter_le _ _
    omega

theorem programReadiness_aggregate_witness :
    (calculateOverallProgramReadiness [sampleTaskForce]).totalParticipants
        = totalParticipantsOf [sampleTaskForce] ∧
    (calculateOverallProgramReadiness [sampleTaskForce]).taskForcesOnTrack
        + (calculateOverallProgramReadiness [sampleTaskForce]).taskForcesAtRisk = 1 :=
  ⟨(programReadiness_aggregate [sampleTaskForce] (by decide)).2.1,
   by simpa using (programReadiness_aggregate [sampleTaskForce] (by decide)).2.2.1⟩

end AIAcademy
